import Mathlib

/-!
Shallow embedding of the machine-controller DigitalOcean provider
(`pkg/cloudprovider/provider/digitalocean`, file `src/unnamed/part_000`)
and of the SSH keypair bootstrapper (`src/pkg/ssh/configmap.go`).

Conventions of the embedding:
* Go `(value, error)` returns become `Except String _` or the `GoResult`
  type below; `GoResult.crashed` marks a run that dereferences a nil
  pointer (a Go runtime panic).
* The godo client and the Kubernetes secret store are interface values in
  the Go code; they are embedded as explicit records of state-passing
  functions, so a theorem can quantify over every backend behaviour.
* Machine integers: droplet IDs are Go `int`, embedded as `Int`.
* The repository compiles with Go 1.15 (CI config), so `range` loop
  variables are allocated once per loop: `&droplet` aliases the loop
  variable.  The embedding of `Get` reproduces that semantics.
-/

/-- Outcome of a Go function returning `(α, error)`.  `crashed` marks a
nil-pointer dereference (runtime panic). -/
inductive GoResult (α : Type) where
  | ok (a : α)
  | err (msg : String)
  | crashed
deriving Repr, DecidableEq

instance exceptDecEq {ε α : Type} [DecidableEq ε] [DecidableEq α] :
    DecidableEq (Except ε α) := fun x y =>
  match x, y with
  | .ok a, .ok b =>
    if h : a = b then .isTrue (by rw [h]) else .isFalse (by simp [h])
  | .error e, .error f =>
    if h : e = f then .isTrue (by rw [h]) else .isFalse (by simp [h])
  | .ok _, .error _ => .isFalse (by simp)
  | .error _, .ok _ => .isFalse (by simp)

/-- Errors of the cloudprovider package.  `instanceNotFound` embeds
`cloudprovidererrors.InstanceNotFoundErr`; `waitTimeout` embeds
`wait.ErrWaitTimeout`; `msg` embeds an error built with `fmt.Errorf` or
`errors.New`. -/
inductive CloudErr where
  | instanceNotFound
  | waitTimeout
  | msg (s : String)
deriving Repr, DecidableEq

/-- A `godo.Droplet` restricted to the fields the provider reads:
`ID`, `Name`, `Status`, `Tags`. -/
structure Droplet where
  id : Int
  name : String
  status : String
  tags : List String
deriving Repr, DecidableEq

/-- The normalized instance state enum (`instance.InstanceStarting`,
`instance.InstanceRunning`, `instance.InstanceStopped`). -/
inductive InstanceState where
  | starting
  | running
  | stopped
deriving Repr, DecidableEq

/-- The provider's instance handle `doInstance` wrapping a droplet. -/
structure doInstance where
  droplet : Droplet
deriving Repr, DecidableEq

/-- Embeds `doInstance.Name` (source line 299). -/
def doInstance.dName (d : doInstance) : String :=
  d.droplet.name

/-- Embeds `strconv.Itoa` on the droplet ID. -/
def itoa (i : Int) : String :=
  toString i

/-- Embeds `strconv.Atoi` with the error discarded, as in `Delete`
(`doID, _ := strconv.Atoi(i.ID())`): on a parse failure Go's `Atoi`
returns 0. -/
def atoi (s : String) : Int :=
  (s.toInt?).getD 0

/-- Embeds `doInstance.ID` (source line 303): `strconv.Itoa(d.droplet.ID)`. -/
def doInstance.dID (d : doInstance) : String :=
  itoa d.droplet.id

/-- Embeds `doInstance.Status` (source lines 307-316): the Instance State
Normalizer; a `switch` on the droplet's native status string. -/
def doInstance.dStatus (d : doInstance) : InstanceState :=
  if d.droplet.status = "new" then .starting
  else if d.droplet.status = "active" then .running
  else .stopped

/-- Embeds `digitalocean.Get` (source lines 265-289), after a successful config
decode.  The droplet listing returned by `client.Droplets.List` is the
`droplets` argument; `specName` is `machine.Spec.Name` and `uid` is
`string(machine.UID)`.

The Go loop is
`var d *godo.Droplet; for _, droplet := range droplets { if match { d = &droplet } }`.
Under Go 1.15 semantics `droplet` is a single variable reused by every
iteration, so `d` (when set) points at the loop variable, whose value
after the loop is the LAST element of the slice.  The fold's first
component is the loop variable's final value (the pointee of `d`), the
second records whether `d` was ever assigned (non-nil). -/
def digitalocean.Get (droplets : List Droplet) (specName uid : String) :
    Except CloudErr doInstance :=
  let final := droplets.foldl
    (fun (st : Option Droplet × Bool) droplet =>
      (some droplet,
        st.2 || (droplet.name == specName && droplet.tags.contains uid)))
    (none, false)
  match final with
  | (some d, true) => .ok ⟨d⟩
  | _ => .error .instanceNotFound

/-- Result of a `Delete` run: the returned error value plus the list of
droplet IDs for which a backend delete call was issued. -/
structure DeleteOutcome where
  result : Except CloudErr Unit
  deleteCalls : List Int
deriving Repr, DecidableEq

/-- Embeds `digitalocean.Delete` (source lines 244-263), after a successful
config decode.  `deleteResp` is the backend's response to
`client.Droplets.Delete` for a given ID. -/
def digitalocean.Delete (droplets : List Droplet) (specName uid : String)
    (deleteResp : Int → Except CloudErr Unit) : DeleteOutcome :=
  match digitalocean.Get droplets specName uid with
  | .error e =>
    if e = .instanceNotFound then ⟨.ok (), []⟩
    else ⟨.error e, []⟩
  | .ok i =>
    let doID := atoi i.dID
    ⟨deleteResp doID, [doID]⟩

/-! ### Creation confirmation polling (source lines 44-48 and 224-242) -/

/-- Embeds `createCheckPeriod = 10 * time.Second`, in seconds. -/
def createCheckPeriod : Nat := 10

/-- Embeds `createCheckTimeout = 5 * time.Minute`, in seconds. -/
def createCheckTimeout : Nat := 300

/-- Embeds `createCheckFailedWaitPeriod = 10 * time.Second`, in seconds. -/
def createCheckFailedWaitPeriod : Nat := 10

/-- Outcome of a `wait.Poll` run. -/
inductive PollResult where
  | done
  | condErr (e : String)
  | timeout
deriving Repr, DecidableEq

/-- Instrumented outcome of the polling loop: the `wait.Poll` return
value, the number of times the condition (one `client.Droplets.Get`
describe call) ran, and the seconds spent in explicit `time.Sleep`
calls made by the condition. -/
structure PollRun where
  result : PollResult
  describeCalls : Nat
  sleepSeconds : Nat
deriving Repr, DecidableEq

/-- Model of `k8s.io/apimachinery/pkg/util/wait.Poll(interval, timeout,
cond)` (library dependency, embedded from its documented semantics):
the condition runs once per interval tick until the timeout elapses;
a condition returning `done = true` ends the wait with success, a
condition returning a NON-NIL ERROR ends the wait immediately with that
error, and when the timeout elapses first the wait returns
`wait.ErrWaitTimeout`.  `fuel` is the number of ticks the timeout
allows (`timeout / interval`); the condition is indexed by the number
of invocations made so far and also reports the seconds it slept. -/
def waitPollAux (cond : Nat → Bool × Option String × Nat) :
    Nat → Nat → Nat → PollRun
  | 0, calls, slept => ⟨.timeout, calls, slept⟩
  | fuel + 1, calls, slept =>
    match cond calls with
    | (_, some e, sl) => ⟨.condErr e, calls + 1, slept + sl⟩
    | (true, none, sl) => ⟨.done, calls + 1, slept + sl⟩
    | (false, none, sl) => waitPollAux cond fuel (calls + 1) (slept + sl)

/-- Embeds `wait.Poll` at the provider's constants: 300 s / 10 s = 30 ticks. -/
def waitPoll (cond : Nat → Bool × Option String × Nat) : PollRun :=
  waitPollAux cond (createCheckTimeout / createCheckPeriod) 0 0

/-- The poll condition closure inside `Create` (source lines 225-239).
`describe i` is the result of the `i`-th `client.Droplets.Get` call.
On a describe error the closure sleeps `createCheckFailedWaitPeriod`
and returns `(false, non-nil error)`; on success it reports whether the
droplet's tag set contains the machine UID. -/
def createCheckCond (uid : String) (describe : Nat → Except String Droplet)
    (i : Nat) : Bool × Option String × Nat :=
  match describe i with
  | .error _ =>
    (false, some "droplet got created but we failed to fetch its status",
      createCheckFailedWaitPeriod)
  | .ok newDroplet =>
    if newDroplet.tags.contains uid then (true, none, 0)
    else (false, none, 0)

/-- What `Create` returns: the `(instance.Instance, error)` pair plus
the instrumented poll run. -/
structure CreateOutcome where
  result : Except String doInstance
  poll : PollRun
deriving Repr, DecidableEq

/-- The tail of `digitalocean.Create` after `client.Droplets.Create`
was accepted and returned `droplet` (source lines 224-242).  The
source assigns the `wait.Poll` result to `err` (line 225) and then
returns `&doInstance{droplet: droplet}, nil` (line 241): the poll
error is never inspected, so the returned pair is always the original
provisional droplet with a nil error. -/
def createConfirm (uid : String) (droplet : Droplet)
    (describe : Nat → Except String Droplet) : CreateOutcome :=
  let run := waitPoll (createCheckCond uid describe)
  ⟨.ok ⟨droplet⟩, run⟩

/-! ### Validate (source lines 61-69 and 91-164) -/

/-- A `godo.Region` restricted to the field `Validate` reads. -/
structure Region where
  slug : String
deriving Repr, DecidableEq

/-- A `godo.Size` restricted to the fields `Validate` reads. -/
structure DOSize where
  slug : String
  available : Bool
  regions : List String
deriving Repr, DecidableEq

/-- The provider `config` struct (source lines 34-42). -/
structure DOConfig where
  token : String
  region : String
  size : String
  backups : Bool
  ipv6 : Bool
  privateNetworking : Bool
  tags : List String
deriving Repr, DecidableEq

/-- The backend's region and size listings, the only remote state
`Validate` touches (both through read-only `List` calls). -/
structure DOBackend where
  regions : List Region
  sizes : List DOSize
deriving Repr, DecidableEq

/-- Embeds `getSlugForOS` (source lines 61-69).  `providerconfig.OperatingSystem`
is a string type with constants `"ubuntu"` and `"coreos"`; every other
value hits `providerconfig.ErrOSNotSupported`. -/
def getSlugForOS (os : String) : Except CloudErr String :=
  if os = "ubuntu" then .ok "ubuntu-16-04-x64"
  else if os = "coreos" then .ok "coreos-stable"
  else .error (.msg "operating system is not supported")

/-- The size loop of `Validate` (source lines 136-161): scan for the
first size whose slug matches; on a match, fail if it is unavailable,
fail if the requested region is not among its regions, otherwise stop
with success (`foundSize = true; break`); falling off the end fails
with "size not found". -/
def sizeLoop (c : DOConfig) : List DOSize → Except CloudErr Unit
  | [] => .error (.msg ("size " ++ c.size ++ " not found"))
  | size :: rest =>
    if size.slug == c.size then
      if !size.available then .error (.msg "size is not available")
      else if !(size.regions.contains c.region) then
        .error (.msg ("size " ++ c.size ++ " is not available in region "
          ++ c.region))
      else .ok ()
    else sizeLoop c rest

/-- Embeds `digitalocean.Validate` (source lines 91-164).  `decodeRes` is the
outcome of `getConfig` (the decoded provider `config` plus the
operating-system selector of the provider config envelope); the two
`List` calls read `backend` and the function returns the backend state
alongside its result, so that non-mutation is part of the statement. -/
def digitalocean.Validate (decodeRes : Except String (DOConfig × String))
    (backend : DOBackend) : Except CloudErr Unit × DOBackend :=
  match decodeRes with
  | .error e => (.error (.msg ("failed to parse config: " ++ e)), backend)
  | .ok (c, os) =>
    if c.token = "" then (.error (.msg "token is missing"), backend)
    else if c.region = "" then (.error (.msg "region is missing"), backend)
    else if c.size = "" then (.error (.msg "size is missing"), backend)
    else
      match getSlugForOS os with
      | .error _ =>
        (.error (.msg ("invalid operating system specified " ++ os)), backend)
      | .ok _ =>
        if !(backend.regions.any (fun r => r.slug == c.region)) then
          (.error (.msg ("region " ++ c.region ++ " not found")), backend)
        else
          (sizeLoop c backend.sizes, backend)

/-! ### SSH keypair secret (src/pkg/ssh/configmap.go) -/

/-- Embeds `privateKeyDataIndex = "id_rsa"` (configmap.go line 18). -/
def privateKeyDataIndex : String := "id_rsa"

/-- Embeds `secretName = "machine-controller-ssh-key"` (configmap.go line 20). -/
def doSecretName : String := "machine-controller-ssh-key"

/-- DER payload of a PEM block, as seen by `x509.ParsePKCS1PrivateKey`
(standard-library dependency, embedded by its documented behaviour):
either the marshalling of an RSA private key — identified abstractly by
a natural number — or malformed bytes. -/
inductive DerBytes where
  | rsaKey (k : Nat)
  | badDer (raw : String)
deriving Repr, DecidableEq

/-- Byte strings stored in a secret, as seen by `pem.Decode`
(standard-library dependency): either not PEM at all — on which
`pem.Decode` returns a nil block — or a PEM block wrapping DER bytes. -/
inductive StoredBytes where
  | notPem (raw : String)
  | pemBlock (der : DerBytes)
deriving Repr, DecidableEq

/-- Embeds `pem.Decode` on the stored bytes: `none` embeds the nil block Go
returns when the input holds no PEM block. -/
def pemDecode : StoredBytes → Option DerBytes
  | .notPem _ => none
  | .pemBlock d => some d

/-- Embeds `x509.ParsePKCS1PrivateKey` on a block's DER payload. -/
def parsePKCS1PrivateKey : DerBytes → Except String Nat
  | .rsaKey k => .ok k
  | .badDer _ => .error "asn1 structure error"

/-- Embeds `pem.Encode` of `x509.MarshalPKCS1PrivateKey(pk)`
(configmap.go lines 33-35). -/
def marshalPKCS1 (k : Nat) : StoredBytes :=
  .pemBlock (.rsaKey k)

/-- A `v1.Secret` restricted to the fields the bootstrapper uses. -/
structure KSecret where
  name : String
  data : List (String × StoredBytes)
deriving Repr, DecidableEq

/-- Embeds `keyFromSecret` (configmap.go lines 60-72).  The source ignores
`pem.Decode`'s failure mode (`decoded, _ := pem.Decode(b)`) and
immediately reads `decoded.Bytes`; when the stored bytes hold no PEM
block, `decoded` is nil and the read is a nil-pointer dereference,
embedded as `GoResult.crashed`. -/
def keyFromSecret (secret : KSecret) : GoResult Nat :=
  match secret.data.lookup privateKeyDataIndex with
  | none => .err "key data not found in secret. remove it and a new one will be created"
  | some b =>
    match pemDecode b with
    | none => .crashed
    | some der =>
      match parsePKCS1PrivateKey der with
      | .ok pk => .ok pk
      | .error e => .err ("failed to parse private key: " ++ e)

/-- Error outcomes of the Kubernetes secret store
(`k8s.io/apimachinery/pkg/api/errors`): `notFound` satisfies
`errors.IsNotFound`, `alreadyExists` is the write conflict returned
when a create races with another creator. -/
inductive StoreErr where
  | notFound
  | alreadyExists
  | other (msg : String)
deriving Repr, DecidableEq

/-- The Go error message carried by a store error. -/
def StoreErr.message : StoreErr → String
  | .notFound => "not found"
  | .alreadyExists => "already exists"
  | .other m => m

/-- The `kubernetes.Interface` secret operations the bootstrapper uses,
as an explicit state machine over a store-state type `σ`: `sGet` embeds
`Secrets(...).Get(secretName, ...)` and `sCreate` embeds
`Secrets(...).Create(&secret)`. -/
structure SecretStore (σ : Type) where
  sGet : σ → String → (Except StoreErr KSecret) × σ
  sCreate : σ → KSecret → (Except StoreErr KSecret) × σ

/-- Embeds `EnsureSSHKeypairSecret` (configmap.go lines 23-58).  `freshKey`
stands for the keypair `NewPrivateKey` would generate on the absent
path (key generation is random in Go; the embedding takes the
generated key as an argument).  On the not-found path the fresh key is
PEM-encoded and written with a single `Create` call; ANY create error
is returned as-is (configmap.go lines 49-51) — the store is not
re-read.  On the present path the stored secret is decoded by
`keyFromSecret`. -/
def EnsureSSHKeypairSecret {σ : Type} (store : SecretStore σ) (s0 : σ)
    (freshKey : Nat) : GoResult Nat × σ :=
  match store.sGet s0 doSecretName with
  | (.error e, s1) =>
    if e = .notFound then
      let secret : KSecret :=
        ⟨doSecretName, [(privateKeyDataIndex, marshalPKCS1 freshKey)]⟩
      match store.sCreate s1 secret with
      | (.ok _, s2) => (.ok freshKey, s2)
      | (.error ce, s2) => (.err ce.message, s2)
    else (.err e.message, s1)
  | (.ok secret, s1) => (keyFromSecret secret, s1)

/-- A store run exhibiting the first-creator race: the initial `Get`
observes absence, and by the time `Create` runs another caller has
written the secret, so `Create` fails with the `alreadyExists`
conflict.  The state counts the operations performed. -/
def raceStore : SecretStore Nat where
  sGet := fun s _ => (.error .notFound, s + 1)
  sCreate := fun s _ => (.error .alreadyExists, s + 1)

/-! ### DigitalOcean SSH key registration (source lines 166-186) -/

/-- A `godo.Key` restricted to the fields the provider uses. -/
structure DOKey where
  keyName : String
  fingerprint : String
  publicKey : String
deriving Repr, DecidableEq

/-- A `godo.Response` restricted to the HTTP status code. -/
structure GodoResponse where
  statusCode : Nat
deriving Repr, DecidableEq

/-- Embeds `ssh.MarshalAuthorizedKey`: public keys are embedded as their
marshalled authorized-keys form, so marshalling is the identity. -/
def marshalAuthorizedKey (pk : String) : String := pk

/-- Embeds `ssh.FingerprintLegacyMD5`: an abstract injective digest of the
marshalled public key. -/
def fingerprintLegacyMD5 (pk : String) : String :=
  "md5-" ++ pk

/-- The `godo.KeysService` interface as an explicit state machine over
a registry-state type `σ`.  `kGetByFingerprint` embeds
`service.GetByFingerprint(ctx, fp)` returning `(key, response, error)`
— each possibly nil; `kCreate` embeds `service.Create(ctx, req)` for a
request `(publicKey, name)`, returning a possibly-nil key and error. -/
structure KeysService (σ : Type) where
  kGetByFingerprint :
    σ → String → (Option DOKey × Option GodoResponse × Option String) × σ
  kCreate : σ → String × String → (Option DOKey × Option String) × σ

/-- Embeds `ensureSSHKeysExist` (source lines 166-186).  `ssh.NewPublicKey` on
an `rsa.PublicKey` cannot fail for the key types in use, so the
embedding starts at the fingerprint computation.  On a lookup error
whose response is non-nil with status 404, the key is created and
`dokey.Fingerprint` of the CREATE RESULT is returned with a nil error —
the create error is dropped (source lines 176-180), and a nil create
result makes the field read a nil dereference (`crashed`).  Any other
lookup error is wrapped and returned. -/
def ensureSSHKeysExist {σ : Type} (service : KeysService σ) (s0 : σ)
    (pk : String) : GoResult String × σ :=
  match service.kGetByFingerprint s0 (fingerprintLegacyMD5 pk) with
  | ((_dokey?, res?, some _e), s1) =>
    if (match res? with
        | some res => res.statusCode == 404
        | none => false) then
      match service.kCreate s1 (marshalAuthorizedKey pk, "machine-controller") with
      | ((some k, _), s2) => (.ok k.fingerprint, s2)
      | ((none, _), s2) => (.crashed, s2)
    else (.err "failed to get key from digitalocean", s1)
  | ((dokey?, _, none), s1) =>
    match dokey? with
    | some k => (.ok k.fingerprint, s1)
    | none => (.crashed, s1)

/-- The honest DigitalOcean key registry: a list of registered keys
plus a counter of create calls.  Lookup by fingerprint answers 200
with the key when present and a 404-status error when absent; create
registers a key whose fingerprint the backend computes from the
uploaded public key, and always succeeds. -/
structure KeyRegistry where
  keys : List DOKey
  createCalls : Nat
deriving Repr, DecidableEq

/-- The honest registry as a `KeysService`. -/
def doKeysService : KeysService KeyRegistry where
  kGetByFingerprint := fun st fp =>
    match st.keys.find? (fun k => k.fingerprint == fp) with
    | some k => ((some k, some ⟨200⟩, none), st)
    | none => ((none, some ⟨404⟩, some "404 key not found"), st)
  kCreate := fun st req =>
    let k : DOKey := ⟨req.2, fingerprintLegacyMD5 req.1, req.1⟩
    ((some k, none), ⟨st.keys ++ [k], st.createCalls + 1⟩)

/-- The key the honest registry stores for an uploaded public key:
name `"machine-controller"` and the backend-computed fingerprint. -/
def newKey (pk : String) : DOKey :=
  ⟨"machine-controller", fingerprintLegacyMD5 pk, pk⟩

/-- A registry run where the lookup reports 404 and the create call
itself fails (returning both a key and a non-nil error), exhibiting the
dropped create error of `ensureSSHKeysExist`. -/
def failingCreateKeysService : KeysService Unit where
  kGetByFingerprint := fun _ _ => ((none, some ⟨404⟩, some "404 key not found"), ())
  kCreate := fun _ req =>
    ((some ⟨req.2, fingerprintLegacyMD5 req.1, req.1⟩, some "create refused"), ())

/-! ## Theorems -/

/-- C1: when the backend accepts the create call but no describe call
ever reports the machine UID in the droplet's tag set, the polling does
stop at the 5-minute budget (30 describe calls, `wait.Poll` yields its
timeout error), but `Create` RETURNS SUCCESS with the provisional
handle: the timeout error assigned at source line 225 is discarded at
line 241, contradicting the claim that `Create` fails with
`CreationConfirmationTimeoutError`. -/
theorem create_succeeds_despite_confirmation_timeout :
    createConfirm "machine-uid" ⟨42, "node", "new", []⟩
        (fun _ => .ok ⟨42, "node", "new", []⟩)
      = ⟨.ok ⟨⟨42, "node", "new", []⟩⟩, ⟨.timeout, 30, 0⟩⟩ := by
  decide

/-- C2: a describe error on the first polling iteration is fatal to the
poll: the condition sleeps the 10-second backoff and then returns a
non-nil error, which makes `wait.Poll` terminate at once — exactly one
describe call is ever issued, and the describe is never retried,
contradicting the claim that polling continues until the 5-minute
timeout.  (`Create` then discards even that error.) -/
theorem poll_terminates_on_first_describe_error :
    createConfirm "machine-uid" ⟨42, "node", "new", []⟩
        (fun _ => .error "transport error")
      = ⟨.ok ⟨⟨42, "node", "new", []⟩⟩,
         ⟨.condErr "droplet got created but we failed to fetch its status",
          1, 10⟩⟩ := by
  decide

/-- C4 counter-evidence: a secret whose bytes under `"id_rsa"` are not
PEM at all makes `keyFromSecret` dereference the nil block returned by
`pem.Decode` — a runtime panic, not the claimed error return. -/
theorem keyFromSecret_crashes_on_non_pem :
    keyFromSecret ⟨doSecretName, [(privateKeyDataIndex, .notPem "garbage")]⟩
      = .crashed := by
  decide

/-- C5 counter-evidence: two droplets share the display name `"node"`
but carry different identifier tags; `Get` for identifier `"uid-a"`
matches droplet 1, yet — because `d = &droplet` aliases the Go 1.15
loop variable — the returned handle is built from droplet 2, the handle
belonging to identifier `"uid-b"`. -/
theorem get_returns_other_identifiers_handle :
    digitalocean.Get
        [⟨1, "node", "active", ["uid-a"]⟩, ⟨2, "node", "active", ["uid-b"]⟩]
        "node" "uid-a"
      = .ok ⟨⟨2, "node", "active", ["uid-b"]⟩⟩ := by
  decide

/-- C7: the Instance State Normalizer is total on status strings and
maps `"new"` to Starting, `"active"` to Running, and every other
value to Stopped. -/
theorem status_normalizer_total (d : Droplet) :
    (d.status = "new" → doInstance.dStatus ⟨d⟩ = .starting) ∧
    (d.status = "active" → doInstance.dStatus ⟨d⟩ = .running) ∧
    (d.status ≠ "new" → d.status ≠ "active" →
      doInstance.dStatus ⟨d⟩ = .stopped) := by
  refine ⟨fun h => ?_, fun h => ?_, fun h1 h2 => ?_⟩
  · simp [doInstance.dStatus, h]
  · simp [doInstance.dStatus, h]
  · simp [doInstance.dStatus, h1, h2]

/-- C7 witness: the normalizer evaluated on the documented droplet
statuses `"new"`, `"active"` and `"archive"`. -/
theorem status_normalizer_total_witness :
    doInstance.dStatus ⟨⟨1, "a", "new", []⟩⟩ = .starting ∧
    doInstance.dStatus ⟨⟨1, "a", "active", []⟩⟩ = .running ∧
    doInstance.dStatus ⟨⟨1, "a", "archive", []⟩⟩ = .stopped :=
  ⟨(status_normalizer_total ⟨1, "a", "new", []⟩).1 rfl,
   (status_normalizer_total ⟨1, "a", "active", []⟩).2.1 rfl,
   (status_normalizer_total ⟨1, "a", "archive", []⟩).2.2 (by decide) (by decide)⟩

/-- C6: when `Get` reports `InstanceNotFoundErr`, `Delete` returns
success and issues zero backend delete calls; when `Get` returns a
handle, `Delete` issues exactly one backend delete call, keyed by the
backend-native ID obtained from that handle. -/
theorem delete_idempotent_single_call (droplets : List Droplet)
    (specName uid : String) (deleteResp : Int → Except CloudErr Unit) :
    (digitalocean.Get droplets specName uid = .error .instanceNotFound →
      digitalocean.Delete droplets specName uid deleteResp = ⟨.ok (), []⟩) ∧
    (∀ i, digitalocean.Get droplets specName uid = .ok i →
      digitalocean.Delete droplets specName uid deleteResp
        = ⟨deleteResp (atoi i.dID), [atoi i.dID]⟩) := by
  constructor
  · intro h
    unfold digitalocean.Delete
    rw [h]
    simp
  · intro i h
    unfold digitalocean.Delete
    rw [h]

/-- C6 witness: a spec with no matching droplet deletes nothing and
succeeds; a spec with a matching droplet issues one delete call keyed
by the ID from `Get`'s handle. -/
theorem delete_idempotent_single_call_witness :
    digitalocean.Delete [] "node" "uid-a" (fun _ => .ok ()) = ⟨.ok (), []⟩ ∧
    digitalocean.Delete [⟨7, "node", "active", ["uid-a"]⟩] "node" "uid-a"
        (fun _ => .ok ())
      = ⟨.ok (), [atoi (doInstance.dID ⟨⟨7, "node", "active", ["uid-a"]⟩⟩)]⟩ := by
  constructor
  · exact (delete_idempotent_single_call [] "node" "uid-a" (fun _ => .ok ())).1
      (by decide)
  · rw [(delete_idempotent_single_call [⟨7, "node", "active", ["uid-a"]⟩]
      "node" "uid-a" (fun _ => .ok ())).2 ⟨⟨7, "node", "active", ["uid-a"]⟩⟩
      (by decide)]

/-- C3 counter-evidence: a run in which the `Get` observes the secret
absent and the subsequent `Create` hits the `alreadyExists` write
conflict makes `EnsureSSHKeypairSecret` return the conflict error —
not the winner's key as claimed.  (The state counts the two store
operations performed; no re-read happens.) -/
theorem ensure_keypair_conflict_errors :
    EnsureSSHKeypairSecret raceStore 0 42 = (.err "already exists", 2) := by
  decide

/-- C3 (amended): for every store behaviour in which the named secret
is observed absent and the subsequent write fails with the
`alreadyExists` conflict, `EnsureSSHKeypairSecret` returns that
conflict error to the caller, ending in the state reached right after
the failed create — it performs no further store reads and never
returns the winner's key. -/
theorem ensure_keypair_conflict_propagates {σ : Type}
    (store : SecretStore σ) (s0 s1 s2 : σ) (freshKey : Nat)
    (hget : store.sGet s0 doSecretName = (.error .notFound, s1))
    (hcreate : store.sCreate s1
        ⟨doSecretName, [(privateKeyDataIndex, marshalPKCS1 freshKey)]⟩
      = (.error .alreadyExists, s2)) :
    EnsureSSHKeypairSecret store s0 freshKey = (.err "already exists", s2) := by
  unfold EnsureSSHKeypairSecret
  rw [hget]
  simp [hcreate, StoreErr.message]

/-- C3 witness: the amended theorem applied to the racing store. -/
theorem ensure_keypair_conflict_propagates_witness :
    EnsureSSHKeypairSecret raceStore 5 42 = (.err "already exists", 7) :=
  ensure_keypair_conflict_propagates raceStore 5 6 7 42 rfl rfl

/-- C10: on the not-found path of `ensureSSHKeysExist` (lookup error
with a 404 response), a failing create call's error is NEVER
propagated: the function's result is `dokey.Fingerprint` of the create
call's possibly-nil result with a nil Go error — a nil-pointer
dereference when the result is nil — and in no case the create error. -/
theorem ensure_keys_drops_create_error {σ : Type} (service : KeysService σ)
    (s0 s1 s2 : σ) (pk : String) (ge ce : String) (k? : Option DOKey)
    (hget : service.kGetByFingerprint s0 (fingerprintLegacyMD5 pk)
      = ((none, some ⟨404⟩, some ge), s1))
    (hcreate : service.kCreate s1 (marshalAuthorizedKey pk, "machine-controller")
      = ((k?, some ce), s2)) :
    ensureSSHKeysExist service s0 pk
      = ((match k? with
          | some k => .ok k.fingerprint
          | none => .crashed), s2) ∧
    ∀ m, (ensureSSHKeysExist service s0 pk).1 ≠ .err m := by
  have hres : ensureSSHKeysExist service s0 pk
      = ((match k? with
          | some k => .ok k.fingerprint
          | none => .crashed), s2) := by
    unfold ensureSSHKeysExist
    rw [hget]
    simp [hcreate]
    cases k? <;> simp
  refine ⟨hres, fun m => ?_⟩
  rw [hres]
  cases k? <;> simp

/-- C10 witness: the dropped create error observed on a concrete
registry whose create call fails after a 404 lookup. -/
theorem ensure_keys_drops_create_error_witness :
    ensureSSHKeysExist failingCreateKeysService () "pubkey"
      = (.ok (fingerprintLegacyMD5 "pubkey"), ()) ∧
    ∀ m, (ensureSSHKeysExist failingCreateKeysService () "pubkey").1
      ≠ .err m := by
  have h := ensure_keys_drops_create_error failingCreateKeysService () () ()
    "pubkey" "404 key not found" "create refused"
    (some ⟨"machine-controller", fingerprintLegacyMD5 "pubkey", "pubkey"⟩)
    rfl rfl
  exact ⟨h.1, h.2⟩

/-- Helper: a run of `ensureSSHKeysExist` against the honest registry
when the fingerprint is absent registers exactly one key and returns
its fingerprint. -/
theorem ensure_keys_absent_run (st0 : KeyRegistry) (pk : String)
    (h : st0.keys.find? (fun k => k.fingerprint == fingerprintLegacyMD5 pk)
      = none) :
    ensureSSHKeysExist doKeysService st0 pk
      = (.ok (fingerprintLegacyMD5 pk),
         ⟨st0.keys ++ [newKey pk], st0.createCalls + 1⟩) := by
  simp only [ensureSSHKeysExist, doKeysService, marshalAuthorizedKey, newKey, h]
  rfl

/-- Helper: a run of `ensureSSHKeysExist` against the honest registry
when the fingerprint is already registered returns the registered key's
fingerprint and leaves the registry untouched. -/
theorem ensure_keys_present_run (st : KeyRegistry) (pk : String) (k : DOKey)
    (h : st.keys.find? (fun x => x.fingerprint == fingerprintLegacyMD5 pk)
      = some k) :
    ensureSSHKeysExist doKeysService st pk = (.ok k.fingerprint, st) := by
  simp only [ensureSSHKeysExist, doKeysService, h]

/-- C8: against the honest registry that starts without the key's
fingerprint, running `ensureSSHKeysExist` twice in sequence returns the
fingerprint both times, leaves the registry with EXACTLY ONE entry
carrying that fingerprint, performs exactly one create call in total,
and the second run changes nothing. -/
theorem ensure_keys_registration_idempotent (st0 : KeyRegistry) (pk : String)
    (h : st0.keys.find? (fun k => k.fingerprint == fingerprintLegacyMD5 pk)
      = none) :
    (ensureSSHKeysExist doKeysService
        (ensureSSHKeysExist doKeysService st0 pk).2 pk).1
      = .ok (fingerprintLegacyMD5 pk) ∧
    (ensureSSHKeysExist doKeysService
        (ensureSSHKeysExist doKeysService st0 pk).2 pk).2
      = (ensureSSHKeysExist doKeysService st0 pk).2 ∧
    ((ensureSSHKeysExist doKeysService st0 pk).2.keys.filter
        (fun k => k.fingerprint == fingerprintLegacyMD5 pk)).length = 1 ∧
    (ensureSSHKeysExist doKeysService st0 pk).2.createCalls
      = st0.createCalls + 1 := by
  have hrun := ensure_keys_absent_run st0 pk h
  have hfind2 : (st0.keys ++ [newKey pk]).find?
        (fun x => x.fingerprint == fingerprintLegacyMD5 pk)
      = some (newKey pk) := by
    rw [List.find?_append, h]
    simp [List.find?, newKey]
  have hrun2 := ensure_keys_present_run
    ⟨st0.keys ++ [newKey pk], st0.createCalls + 1⟩ pk (newKey pk) hfind2
  have hnil : st0.keys.filter (fun x => x.fingerprint == fingerprintLegacyMD5 pk)
      = [] := by
    rw [List.filter_eq_nil_iff]
    intro a ha
    exact List.find?_eq_none.mp h a ha
  refine ⟨?_, ?_, ?_, ?_⟩
  · simp only [hrun]
    simp only [hrun2]
    simp [newKey]
  · simp only [hrun]
    simp only [hrun2]
  · simp only [hrun]
    simp [List.filter_append, hnil, List.filter, newKey]
  · simp only [hrun]

/-- C8 witness: two runs from the empty registry leave one entry and
one create call. -/
theorem ensure_keys_registration_idempotent_witness :
    (ensureSSHKeysExist doKeysService
        (ensureSSHKeysExist doKeysService ⟨[], 0⟩ "pubkey").2 "pubkey").1
      = .ok (fingerprintLegacyMD5 "pubkey") ∧
    (ensureSSHKeysExist doKeysService
        (ensureSSHKeysExist doKeysService ⟨[], 0⟩ "pubkey").2 "pubkey").2
      = (ensureSSHKeysExist doKeysService ⟨[], 0⟩ "pubkey").2 ∧
    ((ensureSSHKeysExist doKeysService ⟨[], 0⟩ "pubkey").2.keys.filter
        (fun k => k.fingerprint == fingerprintLegacyMD5 "pubkey")).length = 1 ∧
    (ensureSSHKeysExist doKeysService ⟨[], 0⟩ "pubkey").2.createCalls = 0 + 1 :=
  ensure_keys_registration_idempotent ⟨[], 0⟩ "pubkey" rfl

/-- Helper: `Validate` returns the backend state unchanged on every
path — it only issues the two read-only `List` calls. -/
theorem validate_state_id (decodeRes : Except String (DOConfig × String))
    (backend : DOBackend) :
    (digitalocean.Validate decodeRes backend).2 = backend := by
  unfold digitalocean.Validate
  repeat' split
  all_goals rfl

/-- Helper: the size loop of `Validate` succeeds exactly when the first
size entry carrying the requested slug exists, is available, and offers
the requested region. -/
theorem sizeLoop_ok_iff (c : DOConfig) (sizes : List DOSize) :
    sizeLoop c sizes = .ok () ↔
      ∃ sz, sizes.find? (fun s => s.slug == c.size) = some sz ∧
        sz.available = true ∧ c.region ∈ sz.regions := by
  induction sizes with
  | nil => simp [sizeLoop]
  | cons s rest ih =>
    by_cases hs : (s.slug == c.size) = true
    · rw [List.find?_cons_of_pos rest hs]
      by_cases ha : s.available = true
      · by_cases hr : s.regions.contains c.region = true
        · simp [sizeLoop, hs, ha, hr]
        · simp [sizeLoop, hs, ha, hr]
      · simp [sizeLoop, hs, ha]
    · rw [List.find?_cons_of_neg rest hs]
      simp [sizeLoop, hs, ih]

/-- C9: given a successfully decoded config, `Validate` succeeds
exactly when the token, region and size fields are non-empty, the
operating system is supported, the region occurs in the backend's
region listing, and the first size entry with the requested slug
exists, is available and is offered in the requested region; in every
case the backend state is left unchanged. -/
theorem validate_field_and_existence_checks (c : DOConfig) (os : String)
    (backend : DOBackend) :
    (digitalocean.Validate (.ok (c, os)) backend).2 = backend ∧
    ((digitalocean.Validate (.ok (c, os)) backend).1 = .ok () ↔
      (c.token ≠ "" ∧ c.region ≠ "" ∧ c.size ≠ "" ∧
        (∃ slug, getSlugForOS os = .ok slug) ∧
        (∃ r ∈ backend.regions, r.slug = c.region) ∧
        ∃ sz, backend.sizes.find? (fun s => s.slug == c.size) = some sz ∧
          sz.available = true ∧ c.region ∈ sz.regions)) := by
  refine ⟨validate_state_id _ _, ?_⟩
  unfold digitalocean.Validate
  by_cases h1 : c.token = ""
  · simp [h1]
  by_cases h2 : c.region = ""
  · simp [h1, h2]
  by_cases h3 : c.size = ""
  · simp [h1, h2, h3]
  cases hos : getSlugForOS os with
  | error e => simp [h1, h2, h3, hos]
  | ok slug =>
    by_cases hreg : backend.regions.any (fun r => r.slug == c.region) = true
    · have hex : ∃ r ∈ backend.regions, r.slug = c.region := by
        obtain ⟨r, hrmem, hrslug⟩ := List.any_eq_true.mp hreg
        exact ⟨r, hrmem, by simpa using hrslug⟩
      simp [h1, h2, h3, hos, hreg, sizeLoop_ok_iff, hex]
    · have hnex : ¬ ∃ r ∈ backend.regions, r.slug = c.region := by
        rintro ⟨r, hrmem, hrslug⟩
        exact absurd (List.any_eq_true.mpr ⟨r, hrmem, by simpa using hrslug⟩) hreg
      simp [h1, h2, h3, hos, hreg, hnex]
